import Mathlib

/-!
Shallow embedding of the `indexer-native` crypto core of graphprotocol/indexer:
the EIP-712 attestation signer (`attestation.rs`) and the address/public-key
signature verifier (`signature_verification.rs`, `lib.rs`).

Bytes are modelled as `List Nat` (each element a byte value). The external
cryptographic primitives (keccak-256, secp256k1 recovery/verification,
EIP-712 `sign_typed`) live in third-party crates outside this repository's
sources; they are modelled as an abstract `Crypto` backend whose contract
fields record exactly the guarantees their Rust types and documentation
provide (fixed digest widths, recovery id normalization, success on valid
keys).
-/

namespace Indexer

/-- Byte strings: each element is one byte value. -/
abbrev Bytes := List Nat

/-- A 20-byte Ethereum address, as its byte string. -/
abbrev Address := List Nat

/-- An opaque identifier for a secp256k1 public key (curve point). -/
abbrev PublicKey := Nat

/-- A recoverable ECDSA signature: scalars `r`, `s` and the recovery id. -/
structure RecoverableSignature where
  r : Nat
  s : Nat
  recid : Nat
deriving DecidableEq, Repr

/-- Mirrors `RecoverableSignature::to_standard`: forget the recovery id. -/
def RecoverableSignature.toStandard (sig : RecoverableSignature) : Nat × Nat :=
  (sig.r, sig.s)

/-- The order of the secp256k1 group. -/
def secpOrder : Nat :=
  0xfffffffffffffffffffffffffffffffebaaedce6af48a03bbfd25e8cd0364141

/-- A 32-byte scalar held as a signing key (Rust `secp256k1::SecretKey`). -/
structure SecretKey where
  val : Nat
deriving DecidableEq, Repr

/-- The validity check performed when a Rust `SecretKey` is constructed:
the scalar is nonzero and below the curve order. -/
def SecretKey.valid (k : SecretKey) : Prop :=
  0 < k.val ∧ k.val < secpOrder

/-- The EIP-712 domain record built in `AttestationSigner::new`. -/
structure Eip712Domain where
  name : String
  version : String
  chainId : Bytes
  verifyingContract : Address
  salt : Bytes

/-- The signed struct of `attestation.rs`: three 32-byte fields in fixed order. -/
structure Receipt where
  requestCid : Bytes
  responseCid : Bytes
  subgraphDeploymentId : Bytes
deriving DecidableEq, Repr

/-- Modelled from the spec: the external cryptographic backend used by the two
source files, i.e. the `keccak_hash`, `secp256k1` and `eip_712_derive` crates,
which are dependencies and not part of this repository's sources. Function
fields carry the operations the sources call; proposition fields carry the
contracts the spec and the crates' Rust types give them: `keccak` is a total
function onto 32-byte digests, `signTyped` signs with deterministic RFC 6979
nonces (hence it is a pure function), returns a 64-byte `r ‖ s` buffer with a
recovery id already normalized to 0 or 1, and succeeds on every key that
passed `SecretKey` validation. -/
structure Crypto where
  keccak : Bytes → Bytes
  recoverEcdsa : Bytes → RecoverableSignature → Option PublicKey
  verifyEcdsa : Bytes → Nat × Nat → PublicKey → Bool
  serializeUncompressed : PublicKey → Bytes
  mkDomainSeparator : Eip712Domain → Bytes
  signTyped : Bytes → Receipt → SecretKey → Option (Bytes × Nat)
  keccak_len : ∀ b, (keccak b).length = 32
  signTyped_len : ∀ d r k rs v, signTyped d r k = some (rs, v) → rs.length = 64
  signTyped_v : ∀ d r k rs v, signTyped d r k = some (rs, v) → v = 0 ∨ v = 1
  signTyped_some : ∀ d r k, k.valid → (signTyped d r k).isSome = true

/-- The fixed salt decoded in `AttestationSigner::new`:
`a070ffb1cd7409649bf77822cce74495468e06dbfaef09556838bf188679b9c2`. -/
def attestationSalt : Bytes :=
  [0xa0, 0x70, 0xff, 0xb1, 0xcd, 0x74, 0x09, 0x64, 0x9b, 0xf7, 0x78, 0x22,
   0xcc, 0xe7, 0x44, 0x95, 0x46, 0x8e, 0x06, 0xdb, 0xfa, 0xef, 0x09, 0x55,
   0x68, 0x38, 0xbf, 0x18, 0x86, 0x79, 0xb9, 0xc2]

/-- The signer state of `attestation.rs`: deployment id, domain separator
and signing key, all fixed at construction. -/
structure AttestationSigner where
  subgraphDeploymentId : Bytes
  domainSeparator : Bytes
  signer : SecretKey

/-- Mirrors `AttestationSigner::new`: build the EIP-712 domain with
name "Graph Protocol", version "0", the given chain id and dispute-manager
address, and the fixed salt, then hash it into the domain separator. -/
def AttestationSigner.new (c : Crypto) (chainId : Bytes) (disputeManager : Address)
    (signer : SecretKey) (subgraphDeploymentId : Bytes) : AttestationSigner :=
  let domain : Eip712Domain :=
    { name := "Graph Protocol"
      version := "0"
      chainId := chainId
      verifyingContract := disputeManager
      salt := attestationSalt }
  { subgraphDeploymentId := subgraphDeploymentId
    domainSeparator := c.mkDomainSeparator domain
    signer := signer }

/-- The attestation record produced by `create_attestation`. -/
structure Attestation where
  requestCid : Bytes
  responseCid : Bytes
  subgraphDeploymentId : Bytes
  v : Nat
  r : Bytes
  s : Bytes
deriving DecidableEq, Repr

/-- Mirrors `AttestationSigner::create_attestation`: hash the request and the
response, build the `Receipt`, sign it as EIP-712 typed data, split the
64-byte signature buffer into `r = rs[0..32]` and `s = rs[32..64]`, and
assemble the `Attestation`. The two `unwrap` sites of the source (a signing
failure, and a slice of the wrong width) are modelled as `none`. -/
def AttestationSigner.createAttestation (c : Crypto) (self : AttestationSigner)
    (request response : Bytes) : Option Attestation :=
  let requestCid := c.keccak request
  let responseCid := c.keccak response
  let receipt : Receipt :=
    { requestCid := requestCid
      responseCid := responseCid
      subgraphDeploymentId := self.subgraphDeploymentId }
  match c.signTyped self.domainSeparator receipt self.signer with
  | none => none
  | some (rs, v) =>
    if rs.length = 64 then
      some { requestCid := requestCid
             responseCid := responseCid
             subgraphDeploymentId := self.subgraphDeploymentId
             v := v
             r := rs.take 32
             s := (rs.drop 32).take 32 }
    else none

/-- The verifier's cached identity (`enum Signer` of
`signature_verification.rs`): an expected address, or a learned public key. -/
inductive Signer where
  | publicKey : PublicKey → Signer
  | address : Address → Signer
deriving DecidableEq, Repr

/-- The verifier state: the single `ArcSwap<Signer>` cell. -/
structure SignatureVerifier where
  signer : Signer
deriving DecidableEq, Repr

/-- Mirrors `SignatureVerifier::new`: start in the `Address` state. -/
def SignatureVerifier.new (signer : Address) : SignatureVerifier :=
  { signer := Signer.address signer }

/-- One `verify` call's observable effects: the returned `Result<bool>`, the
`Signer` cell after the call, and whether the call ran point recovery
(`recover_ecdsa`); the last field instruments the cost claim of the fast
path, it does not change the source's data flow. -/
structure VerifyResult where
  result : Except String Bool
  state : Signer
  usedRecovery : Bool

/-- Mirrors `SignatureVerifier::verify`: hash the message; in the `PublicKey`
state, standard (non-recovering) ECDSA verification of `to_standard` against
the cached key, returning `Ok` of the boolean; in the `Address` state, recover
the signer (failure surfaces as the error string), hash the uncompressed
serialization without its leading format byte, compare `pk_hash[12..]` with
the address, and on a match store the recovered key before returning
`Ok(true)`; on a mismatch return `Ok(false)` leaving the cell unchanged. -/
def SignatureVerifier.verify (c : Crypto) (self : SignatureVerifier)
    (message : Bytes) (signature : RecoverableSignature) : VerifyResult :=
  let messageHash := c.keccak message
  match self.signer with
  | Signer.publicKey signer =>
    { result := Except.ok (c.verifyEcdsa messageHash signature.toStandard signer)
      state := Signer.publicKey signer
      usedRecovery := false }
  | Signer.address addr =>
    match c.recoverEcdsa messageHash signature with
    | none =>
      { result := Except.error "Failed to recover signature"
        state := Signer.address addr
        usedRecovery := true }
    | some recoveredSigner =>
      let ser := c.serializeUncompressed recoveredSigner
      let pkHash := c.keccak (ser.drop 1)
      if pkHash.drop 12 = addr then
        { result := Except.ok true
          state := Signer.publicKey recoveredSigner
          usedRecovery := true }
      else
        { result := Except.ok false
          state := Signer.address addr
          usedRecovery := true }

/-- The address derived from a public key in the `Address` branch of `verify`:
bytes 12..32 of the keccak-256 digest of the uncompressed point without its
leading format byte. -/
def addrOf (c : Crypto) (k : PublicKey) : Bytes :=
  (c.keccak ((c.serializeUncompressed k).drop 1)).drop 12

/-- The last `n` bytes of a byte string (the spec's phrasing of the derived
address). -/
def lastBytes (n : Nat) (xs : Bytes) : Bytes :=
  xs.drop (xs.length - n)

/-- A sequence of `verify` calls on one verifier, threading the `Signer`
cell from call to call. -/
def runVerifies (c : Crypto) (v : SignatureVerifier) :
    List (Bytes × RecoverableSignature) → SignatureVerifier
  | [] => v
  | (m, sig) :: rest =>
    runVerifies c { signer := (v.verify c m sig).state } rest

/-- Modelled from the spec: the host-binding marshalling of the 65-byte wire
signature `r(32) ‖ s(32) ‖ recoveryByte(1)` into a `RecoverableSignature`
(the `Arg` decoding used by `SignatureVerifierImpl::_verify` lives in the
repository's `native_utils` package, outside the given sources). A recovery
byte in legacy Ethereum form 27 or 28 has 27 subtracted; after that only 0
and 1 are accepted, anything else is the `InvalidSignatureEncoding` error. -/
def parseRecoverableSignature (r s recoveryId : Nat) :
    Except String RecoverableSignature :=
  let recId := if recoveryId = 27 ∨ recoveryId = 28 then recoveryId - 27 else recoveryId
  if recId = 0 ∨ recId = 1 then
    Except.ok { r := r, s := s, recid := recId }
  else
    Except.error "InvalidSignatureEncoding"

/-- Mirrors `SignatureVerifierImpl::_verify` composed with the spec-modelled
wire decoding: parse the wire signature, then run `verify`; a decoding error
is surfaced without touching the verifier. -/
def SignatureVerifier.verifyWire (c : Crypto) (self : SignatureVerifier)
    (message : Bytes) (r s recoveryId : Nat) : VerifyResult :=
  match parseRecoverableSignature r s recoveryId with
  | Except.error e =>
    { result := Except.error e, state := self.signer, usedRecovery := false }
  | Except.ok sig => self.verify c message sig

/-- A concrete instantiation of the abstract backend, used to evaluate the
theorems on concrete inputs: recovery always yields key `7`, standard
verification always accepts, and signing yields a zero buffer. -/
def cryptoTest : Crypto where
  keccak := fun _ => List.replicate 32 0
  recoverEcdsa := fun _ _ => some 7
  verifyEcdsa := fun _ _ _ => true
  serializeUncompressed := fun _ => List.replicate 65 0
  mkDomainSeparator := fun _ => List.replicate 32 0
  signTyped := fun _ _ _ => some (List.replicate 64 0, 0)
  keccak_len := fun _ => by simp
  signTyped_len := fun _ _ _ rs v h => by
    simp only [Option.some.injEq, Prod.mk.injEq] at h
    rw [← h.1]
    simp
  signTyped_v := fun _ _ _ rs v h => by
    simp only [Option.some.injEq, Prod.mk.injEq] at h
    exact Or.inl h.2.symm
  signTyped_some := fun _ _ _ _ => rfl

/-- A concrete backend on which recovery fails and standard verification
rejects, used to evaluate the error-path theorems. -/
def cryptoFail : Crypto where
  keccak := fun _ => List.replicate 32 0
  recoverEcdsa := fun _ _ => none
  verifyEcdsa := fun _ _ _ => false
  serializeUncompressed := fun _ => List.replicate 65 0
  mkDomainSeparator := fun _ => List.replicate 32 0
  signTyped := fun _ _ _ => some (List.replicate 64 0, 0)
  keccak_len := fun _ => by simp
  signTyped_len := fun _ _ _ rs v h => by
    simp only [Option.some.injEq, Prod.mk.injEq] at h
    rw [← h.1]
    simp
  signTyped_v := fun _ _ _ rs v h => by
    simp only [Option.some.injEq, Prod.mk.injEq] at h
    exact Or.inl h.2.symm
  signTyped_some := fun _ _ _ _ => rfl

/-- A concrete attestation signer over `cryptoTest`. -/
def signerTest : AttestationSigner :=
  AttestationSigner.new cryptoTest (List.replicate 32 0) (List.replicate 20 0)
    { val := 1 } (List.replicate 32 0)

/-- The attestation `signerTest` produces over `cryptoTest`. -/
def attTest : Attestation :=
  { requestCid := List.replicate 32 0
    responseCid := List.replicate 32 0
    subgraphDeploymentId := List.replicate 32 0
    v := 0
    r := List.replicate 32 0
    s := List.replicate 32 0 }

/-- Unfolding lemma for `createAttestation` with its let-bindings reduced. -/
theorem createAttestation_def (c : Crypto) (s : AttestationSigner)
    (request response : Bytes) :
    s.createAttestation c request response =
      match c.signTyped s.domainSeparator
          { requestCid := c.keccak request
            responseCid := c.keccak response
            subgraphDeploymentId := s.subgraphDeploymentId } s.signer with
      | none => none
      | some (rs, v) =>
        if rs.length = 64 then
          some { requestCid := c.keccak request
                 responseCid := c.keccak response
                 subgraphDeploymentId := s.subgraphDeploymentId
                 v := v
                 r := rs.take 32
                 s := (rs.drop 32).take 32 }
        else none := rfl

/-- Claim C1: for every request and response payload, the attestation
returned by `createAttestation` has `requestCID` equal to the keccak-256
digest of the request, `responseCID` equal to the keccak-256 digest of the
response, and `subgraphDeploymentID` equal to the deployment id the signer
was constructed with. -/
theorem createAttestation_cids (c : Crypto) (s : AttestationSigner)
    (request response : Bytes) (att : Attestation)
    (h : s.createAttestation c request response = some att) :
    att.requestCid = c.keccak request ∧ att.responseCid = c.keccak response ∧
    att.subgraphDeploymentId = s.subgraphDeploymentId := by
  rw [createAttestation_def] at h
  split at h
  · exact Option.noConfusion h
  · split at h
    · cases h
      exact ⟨rfl, rfl, rfl⟩
    · exact Option.noConfusion h

/-- Witness for C1 at a concrete signer and payloads. -/
theorem createAttestation_cids_witness :
    signerTest.createAttestation cryptoTest [1] [2] = some attTest ∧
    (attTest.requestCid = cryptoTest.keccak [1] ∧
     attTest.responseCid = cryptoTest.keccak [2] ∧
     attTest.subgraphDeploymentId = signerTest.subgraphDeploymentId) :=
  ⟨by decide, createAttestation_cids cryptoTest signerTest [1] [2] attTest (by decide)⟩

/-- Claim C5: for a fixed signer, `createAttestation` is deterministic: two
calls on the same request and response yield bit-identical `(v, r, s)` (the
signing backend uses RFC 6979 deterministic nonces and only
construction-immutable state, so it is a pure function of its inputs). -/
theorem createAttestation_deterministic (c : Crypto) (s : AttestationSigner)
    (request response : Bytes) (a₁ a₂ : Attestation)
    (h₁ : s.createAttestation c request response = some a₁)
    (h₂ : s.createAttestation c request response = some a₂) :
    a₁.v = a₂.v ∧ a₁.r = a₂.r ∧ a₁.s = a₂.s := by
  rw [h₁] at h₂
  cases h₂
  exact ⟨rfl, rfl, rfl⟩

/-- Witness for C5 at a concrete signer and payloads. -/
theorem createAttestation_deterministic_witness :
    signerTest.createAttestation cryptoTest [1] [2] = some attTest ∧
    (attTest.v = attTest.v ∧ attTest.r = attTest.r ∧ attTest.s = attTest.s) :=
  ⟨by decide,
   createAttestation_deterministic cryptoTest signerTest [1] [2] attTest attTest
     (by decide) (by decide)⟩

/-- Claim C7: every attestation returned by `createAttestation` carries a
recovery id `v` in `{0, 1}`, already normalized away from the legacy
`{27, 28}` encoding. -/
theorem createAttestation_v_normalized (c : Crypto) (s : AttestationSigner)
    (request response : Bytes) (att : Attestation)
    (h : s.createAttestation c request response = some att) :
    att.v = 0 ∨ att.v = 1 := by
  rw [createAttestation_def] at h
  split at h
  · exact Option.noConfusion h
  next rs v heq =>
    split at h
    · cases h
      exact c.signTyped_v _ _ _ _ _ heq
    · exact Option.noConfusion h

/-- Witness for C7 at a concrete signer and payloads. -/
theorem createAttestation_v_normalized_witness :
    signerTest.createAttestation cryptoTest [3] [4] = some attTest ∧
    (attTest.v = 0 ∨ attTest.v = 1) :=
  ⟨by decide, createAttestation_v_normalized cryptoTest signerTest [3] [4] attTest (by decide)⟩

/-- Claim C9: given a signing key that passed secp256k1 validation,
`createAttestation` cannot fail on any request/response pair: the signing
step succeeds and the 64-byte signature buffer always splits into `r` and
`s`, so the `unwrap` branches are unreachable. -/
theorem createAttestation_total (c : Crypto) (s : AttestationSigner)
    (request response : Bytes) (h : s.signer.valid) :
    (s.createAttestation c request response).isSome = true := by
  rw [createAttestation_def]
  rcases hs : c.signTyped s.domainSeparator
      { requestCid := c.keccak request
        responseCid := c.keccak response
        subgraphDeploymentId := s.subgraphDeploymentId } s.signer with _ | ⟨rs, v⟩
  · have h2 := c.signTyped_some s.domainSeparator
      { requestCid := c.keccak request
        responseCid := c.keccak response
        subgraphDeploymentId := s.subgraphDeploymentId } s.signer h
    rw [hs] at h2
    exact absurd h2 (by simp)
  · have hl := c.signTyped_len _ _ _ _ _ hs
    simp [hs, hl]

/-- Witness for C9 at a concrete valid key. -/
theorem createAttestation_total_witness :
    signerTest.signer.valid ∧
    (signerTest.createAttestation cryptoTest [] []).isSome = true :=
  ⟨⟨by decide, by decide⟩,
   createAttestation_total cryptoTest signerTest [] [] ⟨by decide, by decide⟩⟩

/-- Claim C2: in the `Address(addr)` state, for every message and every
signature from which a public key `K` is recoverable, `verify` returns true
iff the last 20 bytes of the keccak-256 digest of the uncompressed encoding
of `K` without its leading format byte equal `addr`; when it returns true it
publishes `SignerIdentity = PublicKey(K)`, and when it returns false it
leaves the identity unchanged. -/
theorem verify_address_match (c : Crypto) (addr : Address) (message : Bytes)
    (signature : RecoverableSignature) (K : PublicKey)
    (h : c.recoverEcdsa (c.keccak message) signature = some K) :
    (((SignatureVerifier.new addr).verify c message signature).result = Except.ok true ↔
        lastBytes 20 (c.keccak ((c.serializeUncompressed K).drop 1)) = addr)
    ∧ (((SignatureVerifier.new addr).verify c message signature).result = Except.ok true →
        ((SignatureVerifier.new addr).verify c message signature).state = Signer.publicKey K)
    ∧ (((SignatureVerifier.new addr).verify c message signature).result = Except.ok false →
        ((SignatureVerifier.new addr).verify c message signature).state = Signer.address addr) := by
  have hl : lastBytes 20 (c.keccak ((c.serializeUncompressed K).tail))
      = (c.keccak ((c.serializeUncompressed K).tail)).drop 12 := by
    simp [lastBytes, c.keccak_len]
  unfold SignatureVerifier.new SignatureVerifier.verify
  simp only [h]
  by_cases hc : (c.keccak ((c.serializeUncompressed K).tail)).drop 12 = addr
  · simp [hc, hl]
  · simp [hc, hl]

/-- Witness for C2 at a concrete backend where the derived address matches. -/
theorem verify_address_match_witness :
    cryptoTest.recoverEcdsa (cryptoTest.keccak [1]) { r := 1, s := 2, recid := 0 } = some 7 ∧
    ((((SignatureVerifier.new (List.replicate 20 0)).verify cryptoTest [1]
          { r := 1, s := 2, recid := 0 }).result = Except.ok true ↔
        lastBytes 20 (cryptoTest.keccak ((cryptoTest.serializeUncompressed 7).drop 1))
          = List.replicate 20 0)
     ∧ ((((SignatureVerifier.new (List.replicate 20 0)).verify cryptoTest [1]
          { r := 1, s := 2, recid := 0 }).result = Except.ok true →
        ((SignatureVerifier.new (List.replicate 20 0)).verify cryptoTest [1]
          { r := 1, s := 2, recid := 0 }).state = Signer.publicKey 7))
     ∧ ((((SignatureVerifier.new (List.replicate 20 0)).verify cryptoTest [1]
          { r := 1, s := 2, recid := 0 }).result = Except.ok false →
        ((SignatureVerifier.new (List.replicate 20 0)).verify cryptoTest [1]
          { r := 1, s := 2, recid := 0 }).state = Signer.address (List.replicate 20 0)))) :=
  ⟨rfl, verify_address_match cryptoTest (List.replicate 20 0) [1]
    { r := 1, s := 2, recid := 0 } 7 rfl⟩

/-- Claim C3: the signer identity is a monotonic two-state machine: it is
`Address(expectedAddress)` at construction; every `verify` call either
leaves it unchanged or replaces it with a `PublicKey` value, and that
transition fires only on a successful address match; and once the cell
holds a `PublicKey`, no sequence of further `verify` calls ever writes it
again. -/
theorem signerIdentity_monotonic (c : Crypto) (a : Address) (k : PublicKey)
    (v : SignatureVerifier) (m : Bytes) (sig : RecoverableSignature)
    (inputs : List (Bytes × RecoverableSignature)) :
    (SignatureVerifier.new a).signer = Signer.address a
    ∧ ((v.verify c m sig).state = v.signer
        ∨ ∃ K a0, v.signer = Signer.address a0
            ∧ (v.verify c m sig).state = Signer.publicKey K
            ∧ (v.verify c m sig).result = Except.ok true
            ∧ addrOf c K = a0)
    ∧ (runVerifies c { signer := Signer.publicKey k } inputs).signer = Signer.publicKey k := by
  refine ⟨rfl, ?_, ?_⟩
  · rcases v with ⟨s⟩
    cases s with
    | publicKey pk =>
      left
      rfl
    | address a0 =>
      unfold SignatureVerifier.verify
      rcases hr : c.recoverEcdsa (c.keccak m) sig with _ | K
      · left
        simp [hr]
      · simp only [hr]
        by_cases hc : (c.keccak ((c.serializeUncompressed K).tail)).drop 12 = a0
        · right
          refine ⟨K, a0, rfl, by simp [hc], by simp [hc], ?_⟩
          simpa [addrOf] using hc
        · left
          simp [hc]
  · induction inputs with
    | nil => rfl
    | cons p rest ih => exact ih

/-- Claim C4: in the `Address` state (the state in which point recovery is
performed), every signature for which recovery fails produces the
`RecoveryFailure` error; a `false` result is returned only when recovery
succeeded and the derived address of the recovered key does not match; and
an `Ok` result is never the recovery error. -/
theorem verify_recovery_failure (c : Crypto) (addr : Address) (message : Bytes)
    (signature : RecoverableSignature) :
    (c.recoverEcdsa (c.keccak message) signature = none →
      ((SignatureVerifier.new addr).verify c message signature).result
        = Except.error "Failed to recover signature")
    ∧ (((SignatureVerifier.new addr).verify c message signature).result = Except.ok false →
        ∃ K, c.recoverEcdsa (c.keccak message) signature = some K ∧ addrOf c K ≠ addr)
    ∧ (∀ b : Bool,
        ((SignatureVerifier.new addr).verify c message signature).result = Except.ok b →
        ((SignatureVerifier.new addr).verify c message signature).result
          ≠ Except.error "Failed to recover signature") := by
  unfold SignatureVerifier.new SignatureVerifier.verify
  rcases hr : c.recoverEcdsa (c.keccak message) signature with _ | K
  · simp [hr]
  · simp only [hr]
    by_cases hc : (c.keccak ((c.serializeUncompressed K).tail)).drop 12 = addr
    · simp [hc]
    · refine ⟨by simp, ?_, by simp [hc]⟩
      intro _
      exact ⟨K, rfl, by simpa [addrOf] using hc⟩

/-- Witness for C4 at a backend whose recovery fails. -/
theorem verify_recovery_failure_witness :
    cryptoFail.recoverEcdsa (cryptoFail.keccak [1]) { r := 1, s := 2, recid := 0 } = none ∧
    ((SignatureVerifier.new (List.replicate 20 0)).verify cryptoFail [1]
        { r := 1, s := 2, recid := 0 }).result = Except.error "Failed to recover signature" :=
  ⟨rfl, (verify_recovery_failure cryptoFail (List.replicate 20 0) [1]
    { r := 1, s := 2, recid := 0 }).1 rfl⟩

/-- Claim C6: after one successful `verify` call has published the recovered
public key, a subsequent `verify` call with a valid signature from the same
key returns true while performing no point recovery, and the pre-upgrade
`Address` path on the same input would have produced the same `true`
outcome. -/
theorem verify_cached_fast_path (c : Crypto) (addr : Address)
    (m₀ m : Bytes) (sig₀ sig : RecoverableSignature) (K : PublicKey)
    (h₀ : ((SignatureVerifier.new addr).verify c m₀ sig₀).result = Except.ok true)
    (hK : ((SignatureVerifier.new addr).verify c m₀ sig₀).state = Signer.publicKey K)
    (hvalid : c.verifyEcdsa (c.keccak m) sig.toStandard K = true)
    (hrec : c.recoverEcdsa (c.keccak m) sig = some K) :
    ((SignatureVerifier.mk ((SignatureVerifier.new addr).verify c m₀ sig₀).state).verify
        c m sig).result = Except.ok true
    ∧ ((SignatureVerifier.mk ((SignatureVerifier.new addr).verify c m₀ sig₀).state).verify
        c m sig).usedRecovery = false
    ∧ ((SignatureVerifier.mk ((SignatureVerifier.new addr).verify c m₀ sig₀).state).verify
        c m sig).state = Signer.publicKey K
    ∧ ((SignatureVerifier.new addr).verify c m sig).result = Except.ok true := by
  have haddr : addrOf c K = addr := by
    unfold SignatureVerifier.new SignatureVerifier.verify at h₀ hK
    rcases hr : c.recoverEcdsa (c.keccak m₀) sig₀ with _ | K₀
    · simp [hr] at h₀
    · simp only [hr] at h₀ hK
      by_cases hc : (c.keccak ((c.serializeUncompressed K₀).drop 1)).drop 12 = addr
      · rw [if_pos hc] at hK
        have hK0 : K₀ = K := by
          simpa using hK
        rw [← hK0]
        simpa [addrOf] using hc
      · rw [if_neg hc] at h₀
        simp at h₀
  rw [hK]
  refine ⟨?_, rfl, rfl, ?_⟩
  · show Except.ok (c.verifyEcdsa (c.keccak m) sig.toStandard K) = Except.ok true
    rw [hvalid]
  · unfold SignatureVerifier.new SignatureVerifier.verify
    simp only [hrec]
    have hc : (c.keccak ((c.serializeUncompressed K).tail)).drop 12 = addr := by
      simpa [addrOf] using haddr
    simp [hc]

/-- Witness for C6 at a concrete backend on which the first call upgrades
the cache. -/
theorem verify_cached_fast_path_witness :
    ((SignatureVerifier.new (List.replicate 20 0)).verify cryptoTest [1]
        { r := 1, s := 2, recid := 0 }).result = Except.ok true
    ∧ ((SignatureVerifier.new (List.replicate 20 0)).verify cryptoTest [1]
        { r := 1, s := 2, recid := 0 }).state = Signer.publicKey 7
    ∧ cryptoTest.verifyEcdsa (cryptoTest.keccak [2])
        (RecoverableSignature.toStandard { r := 3, s := 4, recid := 1 }) 7 = true
    ∧ cryptoTest.recoverEcdsa (cryptoTest.keccak [2]) { r := 3, s := 4, recid := 1 } = some 7
    ∧ (((SignatureVerifier.mk ((SignatureVerifier.new (List.replicate 20 0)).verify cryptoTest [1]
          { r := 1, s := 2, recid := 0 }).state).verify cryptoTest [2]
          { r := 3, s := 4, recid := 1 }).result = Except.ok true
       ∧ ((SignatureVerifier.mk ((SignatureVerifier.new (List.replicate 20 0)).verify cryptoTest [1]
          { r := 1, s := 2, recid := 0 }).state).verify cryptoTest [2]
          { r := 3, s := 4, recid := 1 }).usedRecovery = false
       ∧ ((SignatureVerifier.mk ((SignatureVerifier.new (List.replicate 20 0)).verify cryptoTest [1]
          { r := 1, s := 2, recid := 0 }).state).verify cryptoTest [2]
          { r := 3, s := 4, recid := 1 }).state = Signer.publicKey 7
       ∧ ((SignatureVerifier.new (List.replicate 20 0)).verify cryptoTest [2]
          { r := 3, s := 4, recid := 1 }).result = Except.ok true) := by
  refine ⟨rfl, rfl, rfl, rfl, ?_⟩
  exact verify_cached_fast_path cryptoTest (List.replicate 20 0) [1] [2]
    { r := 1, s := 2, recid := 0 } { r := 3, s := 4, recid := 1 } 7 rfl rfl rfl rfl

/-- Claim C10: once the verifier is in the cached `PublicKey` state, `verify`
never returns an error: the result is always `Ok` of the standard ECDSA
verification outcome, and a signature that fails it yields `false` rather
than an error. -/
theorem verify_cached_no_error (c : Crypto) (K : PublicKey) (message : Bytes)
    (signature : RecoverableSignature) :
    ((SignatureVerifier.mk (Signer.publicKey K)).verify c message signature).result
        = Except.ok (c.verifyEcdsa (c.keccak message) signature.toStandard K)
    ∧ (∀ e : String,
        ((SignatureVerifier.mk (Signer.publicKey K)).verify c message signature).result
          ≠ Except.error e)
    ∧ (c.verifyEcdsa (c.keccak message) signature.toStandard K = false →
        ((SignatureVerifier.mk (Signer.publicKey K)).verify c message signature).result
          = Except.ok false) := by
  refine ⟨rfl, ?_, ?_⟩
  · intro e h
    exact Except.noConfusion h
  · intro hf
    show Except.ok (c.verifyEcdsa (c.keccak message) signature.toStandard K) = Except.ok false
    rw [hf]

/-- Witness for C10 at a backend whose standard verification rejects. -/
theorem verify_cached_no_error_witness :
    cryptoFail.verifyEcdsa (cryptoFail.keccak [1])
        (RecoverableSignature.toStandard { r := 1, s := 2, recid := 0 }) 7 = false
    ∧ ((SignatureVerifier.mk (Signer.publicKey 7)).verify cryptoFail [1]
        { r := 1, s := 2, recid := 0 }).result = Except.ok false :=
  ⟨rfl, (verify_cached_no_error cryptoFail 7 [1] { r := 1, s := 2, recid := 0 }).2.2 rfl⟩

/-- Claim C8: the wire decoding accepts a recovery id in legacy Ethereum form
27 or 28 by subtracting 27, after which `verify` behaves identically to the
equivalent 0 or 1 encoding on the same `(r, s)`; any recovery id outside
`{0, 1, 27, 28}` fails with `InvalidSignatureEncoding`. -/
theorem verifyWire_legacy (c : Crypto) (v : SignatureVerifier) (message : Bytes)
    (r s recoveryId : Nat)
    (h : recoveryId ≠ 0 ∧ recoveryId ≠ 1 ∧ recoveryId ≠ 27 ∧ recoveryId ≠ 28) :
    v.verifyWire c message r s 27 = v.verifyWire c message r s 0
    ∧ v.verifyWire c message r s 28 = v.verifyWire c message r s 1
    ∧ (v.verifyWire c message r s recoveryId).result
        = Except.error "InvalidSignatureEncoding" := by
  obtain ⟨h0, h1, h27, h28⟩ := h
  refine ⟨rfl, rfl, ?_⟩
  unfold SignatureVerifier.verifyWire parseRecoverableSignature
  simp [h0, h1, h27, h28]

/-- Witness for C8 at the out-of-range recovery id 5. -/
theorem verifyWire_legacy_witness :
    ((5 : Nat) ≠ 0 ∧ (5 : Nat) ≠ 1 ∧ (5 : Nat) ≠ 27 ∧ (5 : Nat) ≠ 28)
    ∧ ((SignatureVerifier.new (List.replicate 20 0)).verifyWire cryptoTest [1] 1 2 27
        = (SignatureVerifier.new (List.replicate 20 0)).verifyWire cryptoTest [1] 1 2 0
       ∧ (SignatureVerifier.new (List.replicate 20 0)).verifyWire cryptoTest [1] 1 2 28
        = (SignatureVerifier.new (List.replicate 20 0)).verifyWire cryptoTest [1] 1 2 1
       ∧ ((SignatureVerifier.new (List.replicate 20 0)).verifyWire cryptoTest [1] 1 2 5).result
        = Except.error "InvalidSignatureEncoding") :=
  ⟨by decide,
   verifyWire_legacy cryptoTest (SignatureVerifier.new (List.replicate 20 0)) [1] 1 2 5
     (by decide)⟩

end Indexer
